import Mathlib

/-!
Verification of the boilerplate-express composition root (`src/index.js`).

The repository is a single Express composition file: a middleware chain
(session, CSRF, return-to tracking), a static route table, and OAuth
callback handlers. This development embeds the first-party logic of that
file — the return-to capture middleware, the conditional CSRF bypass, the
route table with its authorization gates, the OAuth callback redirects and
the MongoDB connection-error handler — as executable Lean definitions and
proves the stated properties about them.
-/

namespace BoilerplateExpress

/-- Server-side session record. The only field this repository ever writes
is `returnTo`; `none` models a JavaScript `undefined` field. -/
structure Session where
  returnTo : Option String
deriving Repr, DecidableEq

/-- Test for the anchored regex `^\/auth`: the path starts with `/auth`. -/
def matchesAuthAnchor (path : String) : Bool :=
  List.isPrefixOf "/auth".data path.data

/-- Test for the regex `\.`: the path contains a dot somewhere. -/
def containsDot (path : String) : Bool :=
  path.data.contains '.'

/-- Return-to capture middleware, transcribed from `src/index.js` lines
104–117. `user` is `true` when `req.user` is set (an authenticated
principal is present); `path` is `req.path`. -/
def returnToMiddleware (user : Bool) (path : String) (s : Session) : Session :=
  if !user && path != "/api/login" && path != "/api/signup"
      && !(matchesAuthAnchor path) && !(containsDot path) then
    { s with returnTo := some path }
  else if user && path == "/api/account" then
    { s with returnTo := some path }
  else
    s

/-- Capture condition as the specification phrases it: either no principal
is present and the path is not the login path, not the signup path, not an
auth path (one starting with `/auth`) and contains no dot, or a principal
is present and the path is the account page. -/
def captureCond (user : Bool) (path : String) : Bool :=
  (!user && path != "/api/login" && path != "/api/signup"
      && !(matchesAuthAnchor path) && !(containsDot path))
  || (user && path == "/api/account")

/-- The middleware is the one-line update guarded by `captureCond`. -/
lemma returnToMiddleware_eq_ite (user : Bool) (path : String) (s : Session) :
    returnToMiddleware user path s
      = if captureCond user path then { s with returnTo := some path } else s := by
  simp only [returnToMiddleware, captureCond]
  by_cases hA : (!user && path != "/api/login" && path != "/api/signup"
      && !(matchesAuthAnchor path) && !(containsDot path)) = true <;>
    by_cases hB : (user && path == "/api/account") = true <;>
      simp [hA, hB]

/-- When the capture condition holds, the middleware stores the path. -/
lemma returnTo_set_of_capture (user : Bool) (path : String) (s : Session)
    (h : captureCond user path = true) :
    (returnToMiddleware user path s).returnTo = some path := by
  rw [returnToMiddleware_eq_ite]
  simp [h]

/-- When the capture condition fails, the middleware is the identity. -/
lemma returnTo_id_of_no_capture (user : Bool) (path : String) (s : Session)
    (h : captureCond user path = false) :
    returnToMiddleware user path s = s := by
  rw [returnToMiddleware_eq_ite]
  simp [h]

/-- C1: the return-to middleware sets `session.returnTo` to the request
path exactly when either no principal is present and the path is not a
login, signup, or auth path and contains no dot, or a principal is present
and the path is the account page; in particular an unauthenticated request
to a non-exempt dot-free path leaves `returnTo` equal to that path. -/
theorem returnTo_capture_exactly (user : Bool) (path : String) (s : Session) :
    (returnToMiddleware user path s
      = if ((!user && path != "/api/login" && path != "/api/signup"
            && !(matchesAuthAnchor path) && !(containsDot path))
          || (user && path == "/api/account")) then
          { s with returnTo := some path }
        else s)
    ∧ (user = false → captureCond false path = true →
        (returnToMiddleware user path s).returnTo = some path) := by
  constructor
  · exact returnToMiddleware_eq_ite user path s
  · rintro rfl hc
    exact returnTo_set_of_capture false path s hc

/-- Witness for C1 at the concrete unauthenticated request to `/api/pricing`
against an empty session. -/
theorem returnTo_capture_exactly_witness :
    captureCond false "/api/pricing" = true
    ∧ (returnToMiddleware false "/api/pricing" ⟨none⟩).returnTo = some "/api/pricing" := by
  refine ⟨by decide, ?_⟩
  exact (returnTo_capture_exactly false "/api/pricing" ⟨none⟩).2 rfl (by decide)

/-- C6: `returnTo` is a single overwrite-on-capture slot: after two
capturing requests, in any session state and for a path of any length, the
stored value is the later request's path. -/
theorem returnTo_overwrites (u₁ u₂ : Bool) (p₁ p₂ : String) (s : Session)
    (h₁ : captureCond u₁ p₁ = true) (h₂ : captureCond u₂ p₂ = true) :
    (returnToMiddleware u₂ p₂ (returnToMiddleware u₁ p₁ s)).returnTo = some p₂
    ∧ (returnToMiddleware u₁ p₁ s).returnTo = some p₁ :=
  ⟨returnTo_set_of_capture u₂ p₂ _ h₂, returnTo_set_of_capture u₁ p₁ s h₁⟩

/-- Witness for C6: a capture of `/api/a` followed by a capture of `/api/b`
leaves `/api/b` in the slot. -/
theorem returnTo_overwrites_witness :
    captureCond false "/api/a" = true ∧ captureCond false "/api/b" = true
    ∧ (returnToMiddleware false "/api/b"
        (returnToMiddleware false "/api/a" ⟨none⟩)).returnTo = some "/api/b" := by
  refine ⟨by decide, by decide, ?_⟩
  exact (returnTo_overwrites false false "/api/a" "/api/b" ⟨none⟩
    (by decide) (by decide)).1

/-- C8: a request satisfying neither capture arm — an authenticated request
to any path other than the account page, or an unauthenticated request to
the login path, the signup path, an auth-prefixed path, or a dotted path —
leaves the session (hence `session.returnTo`) unchanged. -/
theorem returnTo_frame (user : Bool) (path : String) (s : Session)
    (h : (user = true ∧ path ≠ "/api/account")
       ∨ (user = false ∧ (path = "/api/login" ∨ path = "/api/signup"
            ∨ matchesAuthAnchor path = true ∨ containsDot path = true))) :
    returnToMiddleware user path s = s := by
  apply returnTo_id_of_no_capture
  rcases h with ⟨hu, hp⟩ | ⟨hu, hp⟩
  · subst hu
    simp [captureCond, hp]
  · subst hu
    rcases hp with hp | hp | hp | hp <;> simp [captureCond, hp]

/-- Witness for C8: an authenticated request to `/api/contact` leaves a
previously captured `returnTo` in place. -/
theorem returnTo_frame_witness :
    ((true = true ∧ "/api/contact" ≠ "/api/account")
       ∨ (true = false ∧ ("/api/contact" = "/api/login" ∨ "/api/contact" = "/api/signup"
            ∨ matchesAuthAnchor "/api/contact" = true
            ∨ containsDot "/api/contact" = true)))
    ∧ returnToMiddleware true "/api/contact" ⟨some "/api/a"⟩ = ⟨some "/api/a"⟩ := by
  refine ⟨Or.inl ⟨rfl, by decide⟩, ?_⟩
  exact returnTo_frame true "/api/contact" ⟨some "/api/a"⟩ (Or.inl ⟨rfl, by decide⟩)

/-- Incoming request as the CSRF layer sees it: HTTP method, path, and
whether the request carries a valid CSRF token. -/
structure Req where
  method : String
  path : String
  csrfTokenValid : Bool
deriving Repr, DecidableEq

/-- Outcome of the CSRF layer: the request is passed to the next
middleware, or rejected before reaching its route handler. -/
inductive CsrfOutcome
  | pass
  | reject
deriving Repr, DecidableEq

/-- Modelled from the spec: which HTTP methods are mutating. The spec's
CSRF property quantifies over "mutating" requests; safe methods (GET,
HEAD, OPTIONS) are the conventional non-mutating ones. -/
def isMutating (method : String) : Bool :=
  !(method == "GET" || method == "HEAD" || method == "OPTIONS")

/-- Modelled from the spec: the third-party `lusca.csrf()` validator (the
`lusca` package, not part of this repository). Per the spec, "a request to
any other mutating path without a valid CSRF token is rejected"; a
non-mutating request or one carrying a valid token calls through. -/
def luscaCsrf (r : Req) : CsrfOutcome :=
  if isMutating r.method && !r.csrfTokenValid then .reject else .pass

/-- Conditional CSRF middleware, transcribed from `src/index.js` lines
91–97: if `req.path === '/api/api/upload'` call `next()` directly,
otherwise run `lusca.csrf()` on the request. -/
def csrfMiddleware (r : Req) : CsrfOutcome :=
  if r.path == "/api/api/upload" then .pass else luscaCsrf r

/-- C2: a request whose path is the file-upload submission path bypasses
CSRF validation entirely and is never rejected, whatever its method and
whether or not it carries a token. -/
theorem upload_path_skips_csrf (r : Req) (h : r.path = "/api/api/upload") :
    csrfMiddleware r = CsrfOutcome.pass := by
  simp [csrfMiddleware, h]

/-- Witness for C2: a POST to the upload path with an invalid token passes. -/
theorem upload_path_skips_csrf_witness :
    (Req.mk "POST" "/api/api/upload" false).path = "/api/api/upload"
    ∧ csrfMiddleware (Req.mk "POST" "/api/api/upload" false) = CsrfOutcome.pass :=
  ⟨rfl, upload_path_skips_csrf (Req.mk "POST" "/api/api/upload" false) rfl⟩

/-- C3: every request to a path other than the exempted upload path goes
through the CSRF validator, and such a request that is mutating and lacks
a valid token is rejected before reaching its route handler. -/
theorem non_exempt_paths_validated (r : Req) (h : r.path ≠ "/api/api/upload") :
    csrfMiddleware r = luscaCsrf r
    ∧ (isMutating r.method = true → r.csrfTokenValid = false →
        csrfMiddleware r = CsrfOutcome.reject) := by
  have hb : (r.path == "/api/api/upload") = false := by
    simp [h]
  refine ⟨by simp [csrfMiddleware, hb], ?_⟩
  intro hm hv
  simp [csrfMiddleware, hb, luscaCsrf, hm, hv]

/-- Witness for C3: a tokenless POST to `/api/account/profile` is rejected. -/
theorem non_exempt_paths_validated_witness :
    (Req.mk "POST" "/api/account/profile" false).path ≠ "/api/api/upload"
    ∧ isMutating "POST" = true
    ∧ csrfMiddleware (Req.mk "POST" "/api/account/profile" false)
        = CsrfOutcome.reject := by
  refine ⟨by decide, by decide, ?_⟩
  exact (non_exempt_paths_validated (Req.mk "POST" "/api/account/profile" false)
    (by decide)).2 (by decide) rfl

/-- C9: the CSRF exemption is keyed on the path alone: a request of any
method — GET included — and any token state whose path is
`/api/api/upload` skips CSRF validation. -/
theorem csrf_exemption_ignores_method (method : String) (valid : Bool) :
    csrfMiddleware (Req.mk method "/api/api/upload" valid) = CsrfOutcome.pass
    ∧ csrfMiddleware (Req.mk "GET" "/api/api/upload" valid) = CsrfOutcome.pass := by
  constructor <;> simp [csrfMiddleware]

/-- Alphabet of startup effects relevant to the connection-failure claim:
logging, process termination, and the remediations the spec rules out. -/
inductive StartupAction
  | logError (err : String)
  | logAdvice
  | procExit
  | retry
  | backoff
deriving Repr, DecidableEq

/-- Mongoose connection error handler, transcribed from `src/index.js`
lines 54–58: `console.error(err)`, then `console.log('… MongoDB connection
error …')`, then `process.exit()`. -/
def mongoErrorHandler (err : String) : List StartupAction :=
  [.logError err, .logAdvice, .procExit]

/-- C7: on a MongoDB connection failure the error is logged and the
process terminates immediately — the handler's effect sequence is the two
logs followed by `process.exit()`, it ends in process termination, and it
contains no retry and no backoff. -/
theorem mongo_failure_fatal_no_retry (err : String) :
    mongoErrorHandler err
      = [StartupAction.logError err, StartupAction.logAdvice, StartupAction.procExit]
    ∧ (mongoErrorHandler err).getLast? = some StartupAction.procExit
    ∧ StartupAction.retry ∉ mongoErrorHandler err
    ∧ StartupAction.backoff ∉ mongoErrorHandler err := by
  refine ⟨rfl, rfl, ?_, ?_⟩ <;> simp [mongoErrorHandler]

/-- One element of a route's middleware-plus-handler chain, covering the
forms used in `src/index.js`: the two passport-config gates, a
`passport.authenticate(provider, { failureRedirect })` step, a
`passport.authorize(provider, { failureRedirect })` step, the multer
single-file upload step, a named controller handler, and the two shapes of
inline callback arrow (redirect to `req.session.returnTo || '/api/'`, or
redirect to a fixed path). Scope and state options, which carry no routing
behaviour, are elided. -/
inductive Step
  | isAuthenticated
  | isAuthorized
  | authenticateWith (provider : String) (failTo : Option String)
  | authorizeWith (provider : String) (failTo : Option String)
  | uploadSingle (field : String)
  | handler (name : String)
  | redirectReturnTo
  | redirectTo (dest : String)
deriving Repr, DecidableEq

/-- Primary app routes, `src/index.js` lines 124–141. -/
def primaryRoutes : List (String × String × List Step) := [
  ("GET", "/", [.handler "homeController.index"]),
  ("GET", "/api/", [.handler "homeController.index"]),
  ("GET", "/api/login", [.handler "userController.getLogin"]),
  ("POST", "/api/login", [.handler "userController.postLogin"]),
  ("GET", "/api/logout", [.handler "userController.logout"]),
  ("GET", "/api/forgot", [.handler "userController.getForgot"]),
  ("POST", "/api/forgot", [.handler "userController.postForgot"]),
  ("GET", "/api/reset/:token", [.handler "userController.getReset"]),
  ("POST", "/api/reset/:token", [.handler "userController.postReset"]),
  ("GET", "/api/signup", [.handler "userController.getSignup"]),
  ("POST", "/api/signup", [.handler "userController.postSignup"]),
  ("GET", "/api/contact", [.handler "contactController.getContact"]),
  ("POST", "/api/contact", [.handler "contactController.postContact"]),
  ("GET", "/api/account", [.isAuthenticated, .handler "userController.getAccount"]),
  ("POST", "/api/account/profile",
    [.isAuthenticated, .handler "userController.postUpdateProfile"]),
  ("POST", "/api/account/password",
    [.isAuthenticated, .handler "userController.postUpdatePassword"]),
  ("POST", "/api/account/delete",
    [.isAuthenticated, .handler "userController.postDeleteAccount"]),
  ("GET", "/api/account/unlink/:provider",
    [.isAuthenticated, .handler "userController.getOauthUnlink"])
]

/-- API examples routes, `src/index.js` lines 146–160. -/
def apiExampleRoutesA : List (String × String × List Step) := [
  ("GET", "/api/api", [.handler "apiController.getApi"]),
  ("GET", "/api/api/lastfm", [.handler "apiController.getLastfm"]),
  ("GET", "/api/api/nyt", [.handler "apiController.getNewYorkTimes"]),
  ("GET", "/api/api/aviary", [.handler "apiController.getAviary"]),
  ("GET", "/api/api/steam",
    [.isAuthenticated, .isAuthorized, .handler "apiController.getSteam"]),
  ("GET", "/api/api/stripe", [.handler "apiController.getStripe"]),
  ("POST", "/api/api/stripe", [.handler "apiController.postStripe"]),
  ("GET", "/api/api/scraping", [.handler "apiController.getScraping"]),
  ("GET", "/api/api/twilio", [.handler "apiController.getTwilio"]),
  ("POST", "/api/api/twilio", [.handler "apiController.postTwilio"]),
  ("GET", "/api/api/clockwork", [.handler "apiController.getClockwork"]),
  ("POST", "/api/api/clockwork", [.handler "apiController.postClockwork"]),
  ("GET", "/api/api/foursquare",
    [.isAuthenticated, .isAuthorized, .handler "apiController.getFoursquare"]),
  ("GET", "/api/api/tumblr",
    [.isAuthenticated, .isAuthorized, .handler "apiController.getTumblr"])
]

/-- API examples routes, `src/index.js` lines 160–174. -/
def apiExampleRoutesB : List (String × String × List Step) := [
  ("GET", "/api/api/facebook",
    [.isAuthenticated, .isAuthorized, .handler "apiController.getFacebook"]),
  ("GET", "/api/api/github",
    [.isAuthenticated, .isAuthorized, .handler "apiController.getGithub"]),
  ("GET", "/api/api/twitter",
    [.isAuthenticated, .isAuthorized, .handler "apiController.getTwitter"]),
  ("POST", "/api/api/twitter",
    [.isAuthenticated, .isAuthorized, .handler "apiController.postTwitter"]),
  ("GET", "/api/api/linkedin",
    [.isAuthenticated, .isAuthorized, .handler "apiController.getLinkedin"]),
  ("GET", "/api/api/instagram",
    [.isAuthenticated, .isAuthorized, .handler "apiController.getInstagram"]),
  ("GET", "/api/api/paypal", [.handler "apiController.getPayPal"]),
  ("GET", "/api/api/paypal/success", [.handler "apiController.getPayPalSuccess"]),
  ("GET", "/api/api/paypal/cancel", [.handler "apiController.getPayPalCancel"]),
  ("GET", "/api/api/lob", [.handler "apiController.getLob"]),
  ("GET", "/api/api/upload", [.handler "apiController.getFileUpload"]),
  ("POST", "/api/api/upload",
    [.uploadSingle "myFile", .handler "apiController.postFileUpload"]),
  ("GET", "/api/api/pinterest",
    [.isAuthenticated, .isAuthorized, .handler "apiController.getPinterest"]),
  ("POST", "/api/api/pinterest",
    [.isAuthenticated, .isAuthorized, .handler "apiController.postPinterest"]),
  ("GET", "/api/api/google-maps", [.handler "apiController.getGoogleMaps"])
]

/-- OAuth sign-in authentication routes, `src/index.js` lines 179–202. -/
def signinAuthRoutes : List (String × String × List Step) := [
  ("GET", "/api/auth/instagram", [.authenticateWith "instagram" none]),
  ("GET", "/api/auth/instagram/callback",
    [.authenticateWith "instagram" (some "/api/login"), .redirectReturnTo]),
  ("GET", "/api/auth/facebook", [.authenticateWith "facebook" none]),
  ("GET", "/api/auth/facebook/callback",
    [.authenticateWith "facebook" (some "/api/login"), .redirectReturnTo]),
  ("GET", "/api/auth/github", [.authenticateWith "github" none]),
  ("GET", "/api/auth/github/callback",
    [.authenticateWith "github" (some "/api/login"), .redirectReturnTo]),
  ("GET", "/api/auth/google", [.authenticateWith "google" none]),
  ("GET", "/api/auth/google/callback",
    [.authenticateWith "google" (some "/api/login"), .redirectReturnTo]),
  ("GET", "/api/auth/twitter", [.authenticateWith "twitter" none]),
  ("GET", "/api/auth/twitter/callback",
    [.authenticateWith "twitter" (some "/api/login"), .redirectReturnTo]),
  ("GET", "/api/auth/linkedin", [.authenticateWith "linkedin" none]),
  ("GET", "/api/auth/linkedin/callback",
    [.authenticateWith "linkedin" (some "/api/login"), .redirectReturnTo])
]

/-- OAuth authorization (API examples linking) routes, `src/index.js`
lines 207–222. -/
def authorizeAuthRoutes : List (String × String × List Step) := [
  ("GET", "/api/auth/foursquare", [.authorizeWith "foursquare" none]),
  ("GET", "/api/auth/foursquare/callback",
    [.authorizeWith "foursquare" (some "/api/api"), .redirectTo "/api/api/foursquare"]),
  ("GET", "/api/auth/tumblr", [.authorizeWith "tumblr" none]),
  ("GET", "/api/auth/tumblr/callback",
    [.authorizeWith "tumblr" (some "/api/api"), .redirectTo "/api/api/tumblr"]),
  ("GET", "/api/auth/steam", [.authorizeWith "openid" none]),
  ("GET", "/api/auth/steam/callback",
    [.authorizeWith "openid" (some "/api/login"), .redirectReturnTo]),
  ("GET", "/api/auth/pinterest", [.authorizeWith "pinterest" none]),
  ("GET", "/api/auth/pinterest/callback",
    [.authorizeWith "pinterest" (some "/api/login"), .redirectTo "/api/api/pinterest"])
]

/-- Route table transcribed from `src/index.js` lines 124–222, in
registration order: (HTTP method, path, chain). -/
def routes : List (String × String × List Step) :=
  primaryRoutes ++ apiExampleRoutesA ++ apiExampleRoutesB
    ++ signinAuthRoutes ++ authorizeAuthRoutes

/-- Result of running a chain: diverted with a redirect, reached a named
controller handler, or ran off the end of the chain. -/
inductive Outcome
  | redirect (dest : String)
  | reached (name : String)
  | fellThrough
deriving Repr, DecidableEq

def Outcome.isRedirect : Outcome → Bool
  | .redirect _ => true
  | _ => false

/-- Modelled from the spec: execution of a route chain under the
passport-config gates (`config/passport`, not part of this repository).
`isAuthenticated` calls through when a principal is present and otherwise
redirects to the login page; `isAuthorized` calls through when the session
holds a valid access token for the route's provider and otherwise
redirects to the provider listing; both are pass-through guards. Other
step kinds are irrelevant to gating and call through; a named handler ends
the chain. -/
def runSteps (authed tok : Bool) : List Step → Outcome
  | [] => .fellThrough
  | .isAuthenticated :: rest =>
      if authed then runSteps authed tok rest else .redirect "/api/login"
  | .isAuthorized :: rest =>
      if tok then runSteps authed tok rest else .redirect "/api/api"
  | .handler n :: _ => .reached n
  | _ :: rest => runSteps authed tok rest

/-- The eleven authorization-gated provider demonstration endpoints:
(method, path, controller handler). -/
def gatedDemoRoutes : List (String × String × String) := [
  ("GET", "/api/api/steam", "apiController.getSteam"),
  ("GET", "/api/api/foursquare", "apiController.getFoursquare"),
  ("GET", "/api/api/tumblr", "apiController.getTumblr"),
  ("GET", "/api/api/facebook", "apiController.getFacebook"),
  ("GET", "/api/api/github", "apiController.getGithub"),
  ("GET", "/api/api/twitter", "apiController.getTwitter"),
  ("POST", "/api/api/twitter", "apiController.postTwitter"),
  ("GET", "/api/api/linkedin", "apiController.getLinkedin"),
  ("GET", "/api/api/instagram", "apiController.getInstagram"),
  ("GET", "/api/api/pinterest", "apiController.getPinterest"),
  ("POST", "/api/api/pinterest", "apiController.postPinterest")
]

/-- C5: every authorization-gated provider demonstration endpoint is
registered with the `isAuthenticated` and `isAuthorized` gates before its
controller handler, and running its chain without a valid provider token —
authenticated or not — ends in a redirect, never in the controller. -/
theorem gated_demo_routes_guarded :
    ∀ e ∈ gatedDemoRoutes,
      (e.1, e.2.1,
        [Step.isAuthenticated, Step.isAuthorized, Step.handler e.2.2]) ∈ routes
      ∧ ∀ authed : Bool,
          (runSteps authed false
            [Step.isAuthenticated, Step.isAuthorized, Step.handler e.2.2]).isRedirect
              = true
          ∧ runSteps authed false
              [Step.isAuthenticated, Step.isAuthorized, Step.handler e.2.2]
                ≠ Outcome.reached e.2.2 := by
  intro e he
  simp only [gatedDemoRoutes, List.mem_cons, List.not_mem_nil, or_false] at he
  rcases he with rfl | rfl | rfl | rfl | rfl | rfl | rfl | rfl | rfl | rfl | rfl <;>
  · constructor
    · simp only [routes, primaryRoutes, apiExampleRoutesA, apiExampleRoutesB,
        signinAuthRoutes, authorizeAuthRoutes, List.cons_append, List.nil_append]
      repeat first
        | exact List.Mem.head _
        | apply List.Mem.tail
    · intro authed
      cases authed <;> exact ⟨rfl, by simp [runSteps]⟩

/-- Witness for C5 at the Steam demonstration endpoint. -/
theorem gated_demo_routes_guarded_witness :
    ("GET", "/api/api/steam", "apiController.getSteam") ∈ gatedDemoRoutes
    ∧ ("GET", "/api/api/steam",
        [Step.isAuthenticated, Step.isAuthorized,
          Step.handler "apiController.getSteam"]) ∈ routes
    ∧ (runSteps true false
        [Step.isAuthenticated, Step.isAuthorized,
          Step.handler "apiController.getSteam"]).isRedirect = true := by
  have hmem : ("GET", "/api/api/steam", "apiController.getSteam") ∈ gatedDemoRoutes := by
    unfold gatedDemoRoutes
    exact List.Mem.head _
  have h := gated_demo_routes_guarded
    ("GET", "/api/api/steam", "apiController.getSteam") hmem
  exact ⟨hmem, h.1, (h.2 true).1⟩

/-- JavaScript `a || b` on an optional string: `undefined` (`none`) and
the empty string are falsy and yield the default. -/
def jsOrElse (v : Option String) (d : String) : String :=
  match v with
  | some p => if p == "" then d else p
  | none => d

/-- Redirect issued by an inline callback arrow, as a function of the
session: `res.redirect(req.session.returnTo || '/api/')` for the
`redirectReturnTo` shape, `res.redirect(fixed)` for the `redirectTo`
shape; other steps issue no redirect. Note `/api/` is the route of
`homeController.index`, the site root. -/
def callbackRedirect (s : Session) : Step → Option String
  | .redirectReturnTo => some (jsOrElse s.returnTo "/api/")
  | .redirectTo dest => some dest
  | _ => none

/-- The six sign-in providers of `src/index.js` lines 179–202. -/
def signinProviders : List String :=
  ["instagram", "facebook", "github", "google", "twitter", "linkedin"]

/-- C4: each sign-in OAuth callback route (Instagram, Facebook, GitHub,
Google, Twitter, LinkedIn) is registered with the
`redirect(req.session.returnTo || '/api/')` handler after a successful
authentication, and that handler redirects to the captured `returnTo` when
one is present (a JavaScript-truthy, i.e. non-empty, string) and to the
site root `/api/` when none is stored. -/
theorem signin_callback_redirect (s : Session) (provider : String)
    (hp : provider ∈ signinProviders) :
    ("GET", "/api/auth/" ++ provider ++ "/callback",
        [Step.authenticateWith provider (some "/api/login"), Step.redirectReturnTo])
      ∈ routes
    ∧ (∀ p, s.returnTo = some p → p ≠ "" →
        callbackRedirect s Step.redirectReturnTo = some p)
    ∧ (s.returnTo = none →
        callbackRedirect s Step.redirectReturnTo = some "/api/") := by
  refine ⟨?_, ?_, ?_⟩
  · simp only [signinProviders, List.mem_cons, List.not_mem_nil, or_false] at hp
    rcases hp with rfl | rfl | rfl | rfl | rfl | rfl <;>
    · simp only [routes, primaryRoutes, apiExampleRoutesA, apiExampleRoutesB,
        signinAuthRoutes, authorizeAuthRoutes, List.cons_append, List.nil_append,
        String.reduceAppend]
      repeat first
        | exact List.Mem.head _
        | apply List.Mem.tail
  · intro p hsome hne
    simp [callbackRedirect, jsOrElse, hsome, hne]
  · intro hnone
    simp [callbackRedirect, jsOrElse, hnone]

/-- Witness for C4 at the GitHub callback with `/api/account` captured. -/
theorem signin_callback_redirect_witness :
    "github" ∈ signinProviders
    ∧ ("GET", "/api/auth/github/callback",
        [Step.authenticateWith "github" (some "/api/login"), Step.redirectReturnTo])
      ∈ routes
    ∧ callbackRedirect ⟨some "/api/account"⟩ Step.redirectReturnTo
        = some "/api/account" := by
  have hp : "github" ∈ signinProviders := by
    unfold signinProviders
    apply List.Mem.tail
    apply List.Mem.tail
    exact List.Mem.head _
  have h := signin_callback_redirect ⟨some "/api/account"⟩ "github" hp
  exact ⟨hp, h.1, h.2.1 "/api/account" rfl (by decide)⟩

/-- C10: among the authorization-only providers, the Foursquare, Tumblr
and Pinterest callbacks redirect to their fixed provider demonstration
pages whatever the session holds, while only the Steam callback redirects
to the captured `returnTo` (defaulting to the site root `/api/`). -/
theorem authorize_callback_redirect (s : Session) :
    (("GET", "/api/auth/foursquare/callback",
        [Step.authorizeWith "foursquare" (some "/api/api"),
          Step.redirectTo "/api/api/foursquare"]) ∈ routes
      ∧ callbackRedirect s (Step.redirectTo "/api/api/foursquare")
          = some "/api/api/foursquare")
    ∧ (("GET", "/api/auth/tumblr/callback",
        [Step.authorizeWith "tumblr" (some "/api/api"),
          Step.redirectTo "/api/api/tumblr"]) ∈ routes
      ∧ callbackRedirect s (Step.redirectTo "/api/api/tumblr")
          = some "/api/api/tumblr")
    ∧ (("GET", "/api/auth/pinterest/callback",
        [Step.authorizeWith "pinterest" (some "/api/login"),
          Step.redirectTo "/api/api/pinterest"]) ∈ routes
      ∧ callbackRedirect s (Step.redirectTo "/api/api/pinterest")
          = some "/api/api/pinterest")
    ∧ (("GET", "/api/auth/steam/callback",
        [Step.authorizeWith "openid" (some "/api/login"),
          Step.redirectReturnTo]) ∈ routes
      ∧ (∀ p, s.returnTo = some p → p ≠ "" →
          callbackRedirect s Step.redirectReturnTo = some p)
      ∧ (s.returnTo = none →
          callbackRedirect s Step.redirectReturnTo = some "/api/")) := by
  refine ⟨⟨?_, rfl⟩, ⟨?_, rfl⟩, ⟨?_, rfl⟩, ⟨?_, ?_, ?_⟩⟩
  case _ | _ | _ | _ =>
    simp only [routes, primaryRoutes, apiExampleRoutesA, apiExampleRoutesB,
      signinAuthRoutes, authorizeAuthRoutes, List.cons_append, List.nil_append]
    repeat first
      | exact List.Mem.head _
      | apply List.Mem.tail
  case _ =>
    intro p hsome hne
    simp [callbackRedirect, jsOrElse, hsome, hne]
  case _ =>
    intro hnone
    simp [callbackRedirect, jsOrElse, hnone]

/-- Witness for C10 with `/api/account` captured in the session. -/
theorem authorize_callback_redirect_witness :
    callbackRedirect ⟨some "/api/account"⟩ (Step.redirectTo "/api/api/foursquare")
        = some "/api/api/foursquare"
    ∧ callbackRedirect ⟨some "/api/account"⟩ (Step.redirectTo "/api/api/tumblr")
        = some "/api/api/tumblr"
    ∧ callbackRedirect ⟨some "/api/account"⟩ (Step.redirectTo "/api/api/pinterest")
        = some "/api/api/pinterest"
    ∧ callbackRedirect ⟨some "/api/account"⟩ Step.redirectReturnTo
        = some "/api/account" := by
  have h := authorize_callback_redirect ⟨some "/api/account"⟩
  exact ⟨h.1.2, h.2.1.2, h.2.2.1.2, h.2.2.2.2.1 "/api/account" rfl (by decide)⟩

end BoilerplateExpress
